import Mathlib

/-!
Verification of the session-establishment orchestrator in `src/App.tsx`
(a browser client that provisions a real-time audio session and joins it).

The embedding translates the module-level configuration, the room-URL
validator, and the three transition functions (`handleRoomUrl`, `start`,
`leave`) into pure Lean functions.  JavaScript truthiness of strings and
of nullable strings is made explicit (`truthyS`, `truthyOpt`), the
JavaScript `||` operator on such values is `jsOr`/`jsOrStr`, and template
interpolation of a possibly-null string is `jsInterp`.  The suspending
calls (`fetch_start_agent`, `daily.join`) are modelled by passing their
outcomes as parameters; the sequence of `setState` calls and the arguments
of the collaborator calls are recorded in the result structure.
-/

/-- JavaScript truthiness of a string: truthy iff nonempty. -/
def truthyS (s : String) : Bool := decide (s ≠ "")

/-- JavaScript truthiness of a nullable string (null and undefined are falsy). -/
def truthyOpt : Option String → Bool
  | none => false
  | some s => truthyS s

/-- JavaScript `a || b` on nullable strings: yields `b` when `a` is falsy. -/
def jsOr (a b : Option String) : Option String :=
  if truthyOpt a then a else b

/-- JavaScript `a || b` where `b` is a plain string (as in `token || ""`). -/
def jsOrStr (a : Option String) (b : String) : String :=
  match a with
  | none => b
  | some s => if truthyS s then s else b

/-- A single-quote character, used in the join-failure message. -/
def squote : String := String.singleton (Char.ofNat 39)

/-- JavaScript template interpolation of a nullable string: null prints as null. -/
def jsInterp : Option String → String
  | none => "null"
  | some s => s

/-- Substring test used to inspect produced messages. -/
def containsStr (hay needle : String) : Bool :=
  (List.range (hay.data.length + 1)).any
    (fun i => (hay.data.drop i).take needle.data.length == needle.data)

/-- The `State` union type of `App.tsx` (line 19), all eight labels. -/
inductive State where
  | idle
  | configuring
  | requesting_agent
  | connecting
  | connected
  | started
  | finished
  | error
deriving DecidableEq, Repr

/-- The startup configuration read once from the environment and the query
string: raw `VITE_SERVER_URL`, `VITE_SERVER_AUTH`, truthiness of
`VITE_MANUAL_ROOM_ENTRY`, truthiness of `VITE_SHOW_CONFIG`, and the
`room_url` query-string parameter. -/
structure Config where
  serverUrlRaw : Option String
  serverAuth : Option String
  manualRoomEntry : Bool
  showConfigOptions : Bool
  roomQs : Option String
deriving DecidableEq, Repr

/-- Module-level `serverUrl` (line 37): the raw value with a trailing slash
appended when it is truthy and does not already end in a slash.  The code
only ever asks whether the string ends with the single character `/`, which
is the final-character test. -/
def serverUrl (cfg : Config) : Option String :=
  match cfg.serverUrlRaw with
  | none => none
  | some s =>
      if truthyS s && !(match s.data.getLast? with
                        | some c => c == Char.ofNat 47
                        | none => false) then
        some (s ++ String.singleton (Char.ofNat 47))
      else some s

/-- `autoRoomCreation` (line 42): `VITE_MANUAL_ROOM_ENTRY ? false : true`. -/
def autoRoomCreation (cfg : Config) : Bool := !cfg.manualRoomEntry

/-- The regex test of line 47, on the character list of the candidate:
`https?://`, then one-or-more non-dot characters, then the literal
`.daily.co/`, then one-or-more non-slash characters, anchored at both ends.
Because the middle class excludes the dot, the backtracking search is
equivalent to cutting at the first dot. -/
def roomUrlRegexTest (u : String) : Bool :=
  let l := u.data
  let afterProto : Option (List Char) :=
    if l.take 7 == "http://".data then some (l.drop 7)
    else if l.take 8 == "https://".data then some (l.drop 8)
    else none
  match afterProto with
  | none => false
  | some r =>
      let sub := r.takeWhile (fun c => c != Char.ofNat 46)
      let rest := r.drop sub.length
      !sub.isEmpty && (rest.take 10 == ".daily.co/".data) &&
        (let room := rest.drop 10
         !room.isEmpty && !(room.contains (Char.ofNat 47)))

/-- `checkRoomUrl` (lines 46-47): `!!(url && regex.test(url))`. -/
def checkRoomUrl : Option String → Bool
  | none => false
  | some u => truthyS u && roomUrlRegexTest u

/-- Modelled from the spec: the room-URL pattern of section 4.2 and section 8,
namely protocol (`http` or `https`), exactly one subdomain label (nonempty,
containing neither a dot nor a slash, since a hostname label can contain
neither), the provider domain (written `example-provider.com` in the spec as
a placeholder for the `daily.co` domain used by the code), and exactly one
nonempty path segment with no further slash and no trailing slash. -/
def specRoomUrl (u : String) : Bool :=
  let l := u.data
  let afterProto : Option (List Char) :=
    if l.take 7 == "http://".data then some (l.drop 7)
    else if l.take 8 == "https://".data then some (l.drop 8)
    else none
  match afterProto with
  | none => false
  | some r =>
      let sub := r.takeWhile (fun c => c != Char.ofNat 46)
      let rest := r.drop sub.length
      !sub.isEmpty && !(sub.contains (Char.ofNat 47)) &&
        (rest.take 10 == ".daily.co/".data) &&
        (let room := rest.drop 10
         !room.isEmpty && !(room.contains (Char.ofNat 47)))

/-- The spec pattern lifted to a nullable candidate: null is rejected. -/
def specRoomUrlOpt : Option String → Bool
  | none => false
  | some u => specRoomUrl u

/-- Amended pattern: as `specRoomUrl` but the pre-domain segment is only
required to be nonempty and dot-free; it may contain slashes or any other
non-dot characters, so it need not be a single hostname label. -/
def specRoomUrlLoose (u : String) : Bool :=
  let l := u.data
  let afterProto : Option (List Char) :=
    if l.take 7 == "http://".data then some (l.drop 7)
    else if l.take 8 == "https://".data then some (l.drop 8)
    else none
  match afterProto with
  | none => false
  | some r =>
      let sub := r.takeWhile (fun c => c != Char.ofNat 46)
      let rest := r.drop sub.length
      !sub.isEmpty && (rest.take 10 == ".daily.co/".data) &&
        (let room := rest.drop 10
         !room.isEmpty && !(room.contains (Char.ofNat 47)))

/-- The amended pattern lifted to a nullable candidate: null is rejected. -/
def specRoomUrlLooseOpt : Option String → Bool
  | none => false
  | some u => specRoomUrlLoose u

/-- Initial orchestrator state (line 58): idle when the config options are
shown, else configuring. -/
def initState (cfg : Config) : State :=
  if cfg.showConfigOptions then State.idle else State.configuring

/-- Initial `roomUrl` state (line 63): `roomQs || null`. -/
def initRoomUrl (cfg : Config) : Option String := jsOr cfg.roomQs none

/-- Initial `roomError` state (lines 64-66): `(roomQs && checkRoomUrl(roomQs)) || false`. -/
def initRoomError (cfg : Config) : Bool :=
  truthyOpt cfg.roomQs && checkRoomUrl cfg.roomQs

/-- `handleRoomUrl` (lines 69-81): returns the `setState` argument, if any,
and the new value of the `roomError` flag. -/
def handleRoomUrlFn (cfg : Config) (roomUrl : Option String) : Option State × Bool :=
  if (autoRoomCreation cfg && truthyOpt (serverUrl cfg)) || checkRoomUrl roomUrl then
    (some State.configuring, false)
  else
    (none, true)

/-- The disabled condition of the Next button (lines 255-257). -/
def nextDisabled (cfg : Config) (roomError : Bool) : Bool :=
  (truthyOpt cfg.roomQs && !roomError) ||
    (autoRoomCreation cfg && !truthyOpt (serverUrl cfg))

/-- The `result` object of a provisioning response, fields read through
optional chains so either may be absent. -/
structure ResObj where
  url : Option String
  token : Option String
deriving DecidableEq, Repr

/-- A provisioning response body: the code reads its `error`, `room_url`
and `result` fields (each possibly absent). -/
structure RespBody where
  error : Option String
  room_url : Option String
  result : Option ResObj
deriving DecidableEq, Repr

/-- Outcome of the awaited `fetch_start_agent` call: the promise either
rejects, or resolves to a (possibly null) response body. -/
inductive FetchOutcome where
  | thrown
  | ok (data : Option RespBody)
deriving DecidableEq, Repr

/-- Arguments of the `daily.join` call (lines 140-145). -/
structure JoinArgs where
  url : Option String
  token : String
  videoSource : Bool
  startAudioOff : Bool
deriving DecidableEq, Repr

/-- Everything a run of `start` produces: the `setState` arguments in
order, the `setError` message if set, the `setCapacityError` message if
set, the arguments of the `daily.join` call if reached, and the
`room_url`/`token` body of the fire-and-forget `start_bot` request if
fired. -/
structure StartResult where
  states : List State
  errorMsg : Option String
  capacityMsg : Option String
  joinCall : Option JoinArgs
  startBotCall : Option (Option String × Option String)
deriving DecidableEq, Repr

/-- The static capacity message set on either provisioning failure
(lines 119-121 and 127-129). -/
def capacityMessage : String :=
  "We are currently at capacity for this demo. Please try again later."

/-- The early-return result of both provisioning-failure branches:
`requesting_agent` was entered, then the capacity message is set and the
state returns to `configuring`; no join happens. -/
def capacityResult : StartResult :=
  ⟨[State.requesting_agent, State.configuring], none, some capacityMessage, none, none⟩

/-- The tail of `start` from line 136 on: `setState("connecting")`, then the
`daily.join` call with `data?.result?.url || roomUrl` and
`data?.result?.token || ""`; on resolution `setState("connected")`, on
rejection the error message built from `data?.room_url || roomUrl` and
`setState("error")`.  `afterAgent` records whether `requesting_agent` was
entered first (i.e. whether the raw server URL was truthy). -/
def joinPhase (data : Option RespBody) (startBot : Option (Option String × Option String))
    (afterAgent : Bool) (roomUrl : Option String)
    (startAudioOff joinResolves : Bool) : StartResult :=
  let pre := if afterAgent then [State.requesting_agent] else []
  let args : JoinArgs :=
    ⟨jsOr (data.bind fun b => b.result.bind fun r => r.url) roomUrl,
     jsOrStr (data.bind fun b => b.result.bind fun r => r.token) "",
     false, startAudioOff⟩
  if joinResolves then
    ⟨pre ++ [State.connecting, State.connected], none, none, some args, startBot⟩
  else
    ⟨pre ++ [State.connecting, State.error],
     some ("Unable to join room: " ++ squote ++
             jsInterp (jsOr (data.bind fun b => b.room_url) roomUrl) ++ squote),
     none, some args, startBot⟩

/-- `start` (lines 83-156).  The guard of line 85 returns with no effect.
When the raw `VITE_SERVER_URL` is truthy, `requesting_agent` is entered and
the awaited provisioning call is dispatched on: a rejection, a falsy body,
or a truthy `error` field all take the capacity branch; a body whose
`error` is falsy but whose `result` is absent throws a TypeError at the
`data.result.url` access inside the try block, which the catch also turns
into the capacity branch; otherwise the `start_bot` request is fired with
`data.result.url`/`data.result.token` and control falls through to the join
phase.  With no server URL the join phase runs directly with no data. -/
def start (cfg : Config) (dailyPresent : Bool) (roomUrl : Option String)
    (startAudioOff : Bool) (fetchRes : FetchOutcome) (joinResolves : Bool) : StartResult :=
  if !dailyPresent || (!truthyOpt roomUrl && !autoRoomCreation cfg) then
    ⟨[], none, none, none, none⟩
  else if truthyOpt cfg.serverUrlRaw then
    match fetchRes with
    | FetchOutcome.thrown => capacityResult
    | FetchOutcome.ok none => capacityResult
    | FetchOutcome.ok (some body) =>
        if truthyOpt body.error then capacityResult
        else
          match body.result with
          | none => capacityResult
          | some r =>
              joinPhase (some body) (some (r.url, r.token)) true
                roomUrl startAudioOff joinResolves
  else
    joinPhase none none false roomUrl startAudioOff joinResolves

/-- A call on the `daily` collaborator made by `leave`. -/
inductive DailyCall where
  | leaveCall
  | destroyCall
deriving DecidableEq, BEq, Repr

/-- `leave` (lines 158-163): `await daily?.leave(); await daily?.destroy()`
followed by the state reset.  When the collaborator reference is absent the
optional-chained calls short-circuit and neither method is invoked. -/
def leaveFn (dailyPresent : Bool) (showConfig : Bool) : List DailyCall × State :=
  (if dailyPresent then [DailyCall.leaveCall, DailyCall.destroyCall] else [],
   if showConfig then State.idle else State.configuring)

/-- A state value is emitted when it is the initial state for some
configuration, or some transition function passes it to `setState`. -/
def EmittedState (s : State) : Prop :=
  (∃ cfg, initState cfg = s) ∨
  (∃ cfg u b, handleRoomUrlFn cfg u = (some s, b)) ∨
  (∃ cfg d u sao f j, s ∈ (start cfg d u sao f j).states) ∨
  (∃ d sh, (leaveFn d sh).2 = s)

/-- Helper: the join phase always issues the join call, with the
optional-chained url and token expressions as arguments. -/
theorem joinPhase_joinCall (data : Option RespBody)
    (sb : Option (Option String × Option String)) (ag : Bool)
    (u : Option String) (sao j : Bool) :
    (joinPhase data sb ag u sao j).joinCall =
      some ⟨jsOr (data.bind fun b => b.result.bind fun r => r.url) u,
            jsOrStr (data.bind fun b => b.result.bind fun r => r.token) "",
            false, sao⟩ := by
  cases ag <;> cases j <;> rfl

/-- Claim C1: the code violates the stated invariant.  In the configuration
where auto room creation is on, no provisioning server URL is configured,
and the room URL is null, `start` reaches the join call and passes it a
null url. -/
theorem C1_join_called_with_null_url :
    autoRoomCreation ⟨none, none, false, false, none⟩ = true ∧
    truthyOpt (serverUrl ⟨none, none, false, false, none⟩) = false ∧
    start ⟨none, none, false, false, none⟩ true none false (FetchOutcome.ok none) true =
      ⟨[State.connecting, State.connected], none, none,
        some ⟨none, "", false, false⟩, none⟩ := by
  decide

/-- Claim C2: when provisioning succeeded with a room URL and the join call
rejects, the error message is built from the nonexistent response field
room_url falling back to the null roomUrl, so it reads null and does not
contain the URL that was actually passed to the join call. -/
theorem C2_error_message_drops_joined_url :
    start ⟨some "https://srv/", some "auth", false, false, none⟩ true none false
        (FetchOutcome.ok (some ⟨none, none,
          some ⟨some "https://x.daily.co/r", some "t"⟩⟩)) false =
      ⟨[State.requesting_agent, State.connecting, State.error],
        some ("Unable to join room: " ++ squote ++ "null" ++ squote), none,
        some ⟨some "https://x.daily.co/r", "t", false, false⟩,
        some (some "https://x.daily.co/r", some "t")⟩ ∧
    containsStr ("Unable to join room: " ++ squote ++ "null" ++ squote)
        "https://x.daily.co/r" = false := by
  decide

/-- Claim C4, counterexample: the validator accepts a candidate whose
pre-domain segment contains a slash, i.e. a URL whose host is a single
letter and whose path has two extra segments before the room name; such a
string is not protocol + one subdomain label + one path segment. -/
theorem C4_counterexample :
    checkRoomUrl (some "https://a/b.daily.co/x") = true ∧
    specRoomUrlOpt (some "https://a/b.daily.co/x") = false := by
  decide

/-- Claim C4, amended: the validator returns true iff the candidate is
non-null and consists of the protocol, a nonempty dot-free segment (which
may contain slashes, so it need not be a single hostname label), the
provider domain, and exactly one nonempty path segment with no trailing
slash. -/
theorem C4_amended_validator_matches_loose_pattern :
    ∀ u : Option String, checkRoomUrl u = specRoomUrlLooseOpt u := by
  intro u
  cases u with
  | none => rfl
  | some s =>
      show (truthyS s && roomUrlRegexTest s) = specRoomUrlLoose s
      have hre : roomUrlRegexTest s = specRoomUrlLoose s := rfl
      rw [hre]
      by_cases hs : s = ""
      · subst hs; decide
      · simp [truthyS, hs]

/-- Claim C7, counterexample: when the join collaborator reference is
absent, the optional-chained calls are skipped, so leave and destroy are
invoked zero times, not exactly once, although the state is still reset. -/
theorem C7_counterexample_absent_collaborator :
    (leaveFn false true).1 = [] ∧
    (leaveFn false true).1.count DailyCall.leaveCall = 0 ∧
    (leaveFn false true).1.count DailyCall.destroyCall = 0 ∧
    (leaveFn false true).2 = State.idle := by
  decide

/-- Claim C7, amended: invoking leave always results in idle when
showConfigOptions is set and configuring otherwise; when the collaborator
reference is present, its leave and destroy are each invoked exactly once,
leave before destroy; when it is absent, neither is invoked. -/
theorem C7_amended_leave_behaviour :
    ∀ sh : Bool,
      (leaveFn true sh).1 = [DailyCall.leaveCall, DailyCall.destroyCall] ∧
      (leaveFn false sh).1 = [] ∧
      (∀ d : Bool, (leaveFn d sh).2 = if sh then State.idle else State.configuring) := by
  intro sh
  exact ⟨rfl, rfl, fun d => rfl⟩

/-- Claim C9: the validation-error flag is initialized to true iff a
query-string room URL is present and passes the validator (an inverted
flag: a valid pre-supplied URL starts with the error flag set). -/
theorem C9_initial_room_error_iff_present_and_valid :
    ∀ cfg : Config, initRoomError cfg = (cfg.roomQs.isSome && checkRoomUrl cfg.roomQs) := by
  intro cfg
  unfold initRoomError
  cases h : cfg.roomQs with
  | none => rfl
  | some s =>
      by_cases hs : s = ""
      · subst hs; decide
      · simp [truthyOpt, truthyS, hs]

/-- Claim C3, counterexample: with auto room creation on but no
provisioning server URL configured, triggering the proceed action sets the
validation-error flag and does not move to configuring, and the Next button
is disabled. -/
theorem C3_counterexample :
    autoRoomCreation ⟨none, none, false, true, none⟩ = true ∧
    handleRoomUrlFn ⟨none, none, false, true, none⟩ none = (none, true) ∧
    nextDisabled ⟨none, none, false, true, none⟩ false = true := by
  decide

/-- Claim C3, amended: whenever auto room creation is on and a provisioning
server URL is configured, the proceed action moves to configuring and
clears the validation-error flag regardless of the candidate room URL, and
the Next button is disabled exactly when a query-string room URL is present
while the validation-error flag is clear. -/
theorem C3_amended_proceed_with_server :
    ∀ (cfg : Config) (u : Option String) (re : Bool),
      autoRoomCreation cfg = true →
      truthyOpt (serverUrl cfg) = true →
      handleRoomUrlFn cfg u = (some State.configuring, false) ∧
      nextDisabled cfg re = (truthyOpt cfg.roomQs && !re) := by
  intro cfg u re ha hs
  unfold handleRoomUrlFn nextDisabled
  rw [ha, hs]
  simp

/-- Witness for the amended claim C3 at a concrete configuration. -/
theorem C3_amended_witness :
    handleRoomUrlFn ⟨some "https://srv/", none, false, true, none⟩ none =
        (some State.configuring, false) ∧
    nextDisabled ⟨some "https://srv/", none, false, true, none⟩ false =
        (truthyOpt (Config.mk (some "https://srv/") none false true none).roomQs && !false) :=
  C3_amended_proceed_with_server ⟨some "https://srv/", none, false, true, none⟩ none false
    (by decide) (by decide)

/-- Claim C5, counterexample: a provisioning response that carries an error
field whose value is the empty string is treated as a success by the code
because the truthiness test on the field fails, so the orchestrator reaches
connecting (and here connected) and never sets the capacity message. -/
theorem C5_counterexample_empty_error_field :
    (RespBody.mk (some "") none (some ⟨some "https://x.daily.co/r", some "t"⟩)).error =
        some "" ∧
    start ⟨some "https://srv/", some "auth", false, false, none⟩ true none false
        (FetchOutcome.ok (some ⟨some "", none,
          some ⟨some "https://x.daily.co/r", some "t"⟩⟩)) true =
      ⟨[State.requesting_agent, State.connecting, State.connected], none, none,
        some ⟨some "https://x.daily.co/r", "t", false, false⟩,
        some (some "https://x.daily.co/r", some "t")⟩ := by
  decide

/-- Claim C5, amended: for every provisioning outcome that is not a success
— a response carrying a non-empty error field, or a thrown transport error
— start transitions from requesting_agent back to configuring, sets the
same single static non-empty capacity message in both cases, and never
reaches the connecting state or the join call in that attempt. -/
theorem C5_amended_nonsuccess_returns_to_configuring :
    ∀ (cfg : Config) (u : Option String) (sao j : Bool) (f : FetchOutcome),
      truthyOpt cfg.serverUrlRaw = true →
      (truthyOpt u = true ∨ autoRoomCreation cfg = true) →
      (f = FetchOutcome.thrown ∨
        ∃ b e, f = FetchOutcome.ok (some b) ∧ b.error = some e ∧ e ≠ "") →
      start cfg true u sao f j = capacityResult ∧
      capacityResult.states = [State.requesting_agent, State.configuring] ∧
      capacityResult.capacityMsg = some capacityMessage ∧
      capacityMessage ≠ "" ∧
      capacityResult.joinCall = none := by
  intro cfg u sao j f hr hg hf
  refine ⟨?_, rfl, rfl, by decide, rfl⟩
  rcases hf with hf | ⟨b, e, hf, hbe, hee⟩
  · subst hf
    rcases hg with h | h <;> simp [start, hr, h]
  · subst hf
    have hbt : truthyOpt b.error = true := by
      rw [hbe]; simp [truthyOpt, truthyS, hee]
    rcases hg with h | h <;> simp [start, hr, h, hbt]

/-- Witness for the amended claim C5 at a concrete configuration and a
thrown provisioning call. -/
theorem C5_amended_witness :
    start ⟨some "https://srv/", none, false, false, none⟩ true none false
        FetchOutcome.thrown true = capacityResult ∧
    capacityResult.states = [State.requesting_agent, State.configuring] ∧
    capacityResult.capacityMsg = some capacityMessage ∧
    capacityMessage ≠ "" ∧
    capacityResult.joinCall = none :=
  C5_amended_nonsuccess_returns_to_configuring
    ⟨some "https://srv/", none, false, false, none⟩ none false true FetchOutcome.thrown
    (by decide) (Or.inr (by decide)) (Or.inl rfl)

/-- Claim C6: on a provisioning success response carrying a non-empty
result url and a non-empty result token, start moves from requesting_agent
to connecting and passes exactly that url and token to the join call. -/
theorem C6_success_joins_with_provisioned_pair :
    ∀ (cfg : Config) (u₀ : Option String) (sao j : Bool) (b : RespBody) (r : ResObj)
      (u t : String),
      truthyOpt cfg.serverUrlRaw = true →
      (truthyOpt u₀ = true ∨ autoRoomCreation cfg = true) →
      b.error = none →
      b.result = some r →
      r.url = some u → u ≠ "" →
      r.token = some t → t ≠ "" →
      (start cfg true u₀ sao (FetchOutcome.ok (some b)) j).states.take 2 =
        [State.requesting_agent, State.connecting] ∧
      (start cfg true u₀ sao (FetchOutcome.ok (some b)) j).joinCall =
        some ⟨some u, t, false, sao⟩ := by
  intro cfg u₀ sao j b r u t hr hg hbe hbr hru hu hrt ht
  have hguard : (!truthyOpt u₀ && !autoRoomCreation cfg) = false := by
    rcases hg with h | h <;> simp [h]
  have hbt : truthyOpt b.error = false := by rw [hbe]; rfl
  have hstart : start cfg true u₀ sao (FetchOutcome.ok (some b)) j =
      joinPhase (some b) (some (r.url, r.token)) true u₀ sao j := by
    simp [start, hguard, hr, hbt, hbr]
  rw [hstart]
  constructor
  · cases j <;> simp [joinPhase]
  · rw [joinPhase_joinCall]
    simp [Option.bind, hbr, hru, hrt, jsOr, jsOrStr, truthyOpt, truthyS, hu, ht]

/-- Witness for claim C6 at a concrete configuration and success response. -/
theorem C6_witness :
    (start ⟨some "https://srv/", none, false, false, none⟩ true none false
        (FetchOutcome.ok (some ⟨none, none,
          some ⟨some "https://x.daily.co/r", some "tok"⟩⟩)) true).states.take 2 =
      [State.requesting_agent, State.connecting] ∧
    (start ⟨some "https://srv/", none, false, false, none⟩ true none false
        (FetchOutcome.ok (some ⟨none, none,
          some ⟨some "https://x.daily.co/r", some "tok"⟩⟩)) true).joinCall =
      some ⟨some "https://x.daily.co/r", "tok", false, false⟩ :=
  C6_success_joins_with_provisioned_pair
    ⟨some "https://srv/", none, false, false, none⟩ none false true
    ⟨none, none, some ⟨some "https://x.daily.co/r", some "tok"⟩⟩
    ⟨some "https://x.daily.co/r", some "tok"⟩ "https://x.daily.co/r" "tok"
    (by decide) (Or.inr (by decide)) rfl rfl rfl (by decide) rfl (by decide)

/-- Helper: any state appearing in the join phase state sequence is
requesting_agent, connecting, connected or error. -/
theorem mem_joinPhase_states (data : Option RespBody)
    (sb : Option (Option String × Option String)) (ag : Bool)
    (u : Option String) (sao j : Bool) (s : State) :
    s ∈ (joinPhase data sb ag u sao j).states →
    s = State.requesting_agent ∨ s = State.configuring ∨ s = State.connecting ∨
      s = State.connected ∨ s = State.error := by
  intro hs
  cases ag <;> cases j <;> simp [joinPhase] at hs <;> tauto

/-- Helper: any state passed to setState by a run of start is one of
requesting_agent, configuring, connecting, connected, error. -/
theorem mem_start_states_cases (cfg : Config) (d : Bool) (u : Option String)
    (sao : Bool) (f : FetchOutcome) (j : Bool) (s : State) :
    s ∈ (start cfg d u sao f j).states →
    s = State.requesting_agent ∨ s = State.configuring ∨ s = State.connecting ∨
      s = State.connected ∨ s = State.error := by
  intro h
  have hcap : s ∈ capacityResult.states →
      s = State.requesting_agent ∨ s = State.configuring ∨ s = State.connecting ∨
        s = State.connected ∨ s = State.error := by
    intro hs; simp [capacityResult] at hs; tauto
  unfold start at h
  split at h
  · simp at h
  · split at h
    · split at h
      · exact hcap h
      · exact hcap h
      · split at h
        · exact hcap h
        · split at h
          · exact hcap h
          · exact mem_joinPhase_states _ _ _ _ _ _ _ h
    · exact mem_joinPhase_states _ _ _ _ _ _ _ h

/-- Claim C8: every emitted state — the initial state for any
configuration, or any argument of a setState call made by handleRoomUrl,
start or leave — lies in the six-element set, so the declared labels
started and finished are unreachable. -/
theorem C8_reachable_states_are_among_the_six :
    ∀ s : State, EmittedState s →
      (s ≠ State.started ∧ s ≠ State.finished) ∧
      (s = State.idle ∨ s = State.configuring ∨ s = State.requesting_agent ∨
        s = State.connecting ∨ s = State.connected ∨ s = State.error) := by
  intro s hs
  have hsix : s = State.idle ∨ s = State.configuring ∨ s = State.requesting_agent ∨
      s = State.connecting ∨ s = State.connected ∨ s = State.error := by
    rcases hs with ⟨cfg, h⟩ | ⟨cfg, u, b, h⟩ | ⟨cfg, d, u, sao, f, j, h⟩ | ⟨d, sh, h⟩
    · unfold initState at h
      split at h
      · exact Or.inl h.symm
      · exact Or.inr (Or.inl h.symm)
    · unfold handleRoomUrlFn at h
      split at h
      · simp at h
        exact Or.inr (Or.inl h.1.symm)
      · simp at h
    · have := mem_start_states_cases cfg d u sao f j s h
      tauto
    · unfold leaveFn at h
      simp at h
      split at h
      · exact Or.inl h.symm
      · exact Or.inr (Or.inl h.symm)
  refine ⟨?_, hsix⟩
  rcases hsix with h | h | h | h | h | h <;> subst h <;> exact ⟨by decide, by decide⟩

/-- Witness for claim C8: the initial state of a configuration that shows
the config options is emitted and lies in the six-element set. -/
theorem C8_witness :
    EmittedState State.idle ∧
    ((State.idle ≠ State.started ∧ State.idle ≠ State.finished) ∧
      (State.idle = State.idle ∨ State.idle = State.configuring ∨
        State.idle = State.requesting_agent ∨ State.idle = State.connecting ∨
        State.idle = State.connected ∨ State.idle = State.error)) :=
  have h : EmittedState State.idle := Or.inl ⟨⟨none, none, false, true, none⟩, rfl⟩
  ⟨h, C8_reachable_states_are_among_the_six State.idle h⟩

/-- Claim C10: whenever start issues the join call, the token argument is a
plain string: the provisioning result token when that is a non-empty
string, and the empty string in every other case. -/
theorem C10_join_token_is_provisioned_or_empty :
    ∀ (cfg : Config) (d : Bool) (u : Option String) (sao : Bool) (f : FetchOutcome)
      (j : Bool) (a : JoinArgs),
      (start cfg d u sao f j).joinCall = some a →
      (∃ b r t, f = FetchOutcome.ok (some b) ∧ b.result = some r ∧
        r.token = some t ∧ t ≠ "" ∧ a.token = t) ∨
      a.token = "" := by
  intro cfg d u sao f j a h
  unfold start at h
  split at h
  · simp at h
  · split at h
    · split at h
      · simp [capacityResult] at h
      · simp [capacityResult] at h
      · rename_i body
        split at h
        · simp [capacityResult] at h
        · split at h
          · simp [capacityResult] at h
          · rename_i r heq
            rw [joinPhase_joinCall] at h
            simp [heq] at h
            subst h
            rcases hrt : r.token with _ | t
            · right
              simp [heq, hrt, jsOrStr]
            · by_cases ht : t = ""
              · right
                simp [heq, hrt, jsOrStr, truthyS, ht]
              · left
                exact ⟨body, r, t, rfl, heq, hrt, ht, by
                  simp [heq, hrt, jsOrStr, truthyS, ht]⟩
    · rw [joinPhase_joinCall] at h
      simp at h
      subst h
      right
      simp [jsOrStr]

/-- Witness for claim C10: the direct-join path with no provisioning
backend passes the empty-string token. -/
theorem C10_witness :
    (start ⟨none, none, false, false, none⟩ true none false
        (FetchOutcome.ok none) true).joinCall = some ⟨none, "", false, false⟩ ∧
    ((∃ b r t, FetchOutcome.ok none = FetchOutcome.ok (some b) ∧ b.result = some r ∧
        r.token = some t ∧ t ≠ "" ∧ (JoinArgs.mk none "" false false).token = t) ∨
      (JoinArgs.mk none "" false false).token = "") :=
  ⟨by decide,
    C10_join_token_is_provisioned_or_empty ⟨none, none, false, false, none⟩ true none false
      (FetchOutcome.ok none) true ⟨none, "", false, false⟩ (by decide)⟩
